import Mathlib

/-!
Verification of the MLOps session-29 evaluation pipeline.

This file gives a shallow embedding, in Lean 4, of the decision-relevant
code of the repository:

* `check_quality_gates.py` — the `QualityGateChecker` class (four checks,
  `evaluate`, `get_decision`);
* `run_static_evaluation.py` — the `StaticEvaluator` class
  (`validate_rules`, `evaluate_single`, `evaluate_all`), with the external
  generation and similarity collaborators abstracted as function
  parameters;
* `post_pr_results.py` — `normalize_results` and the status / decision
  branch structure of `create_pr_comment`.

Modelling conventions:

* Python dictionaries with optional keys become structures whose fields are
  `Option`-valued; `d.get(k, v)` becomes `field.getD v`.
* Python floats become `ℚ` (the code only divides, multiplies by 100 and
  compares).
* Code that can raise (`ZeroDivisionError` in the pass-rate derivations)
  returns `Option`, with `none` standing for the raised exception.
* `str(rule)` — the rendered form of a rule-validation dictionary — is
  modelled by a `rendered : String` field carried by the entry.

Theorems about the claims, and their witnesses / counterexamples, follow
the definitions.
-/

set_option autoImplicit false

/-- `needle` starts `hay`. -/
def charsPrefix : List Char → List Char → Bool
  | [], _ => true
  | _ :: _, [] => false
  | c :: cs, d :: ds => c = d && charsPrefix cs ds

/-- `needle` occurs contiguously somewhere in `hay`. -/
def charsSub (needle hay : List Char) : Bool :=
  match hay with
  | [] => needle.isEmpty
  | _ :: rest => charsPrefix needle hay || charsSub needle rest

/-- `needle` occurs as a contiguous substring of `hay` — the model of
Python's `needle in hay` on strings. -/
def containsSub (hay needle : String) : Bool :=
  charsSub needle.toList hay.toList

/-- The model of Python's `str.lower()`: lower-case every character. -/
def strToLower (s : String) : String :=
  String.mk (s.toList.map Char.toLower)

/-! ## check_quality_gates.py — data model -/

/-- `QualityConfig` from `check_quality_gates.py`, with the same defaults
(`__post_init__` fills in the critical categories). -/
structure QualityConfig where
  min_pass_rate : ℚ := 95
  min_semantic_similarity : ℚ := 85 / 100
  max_hallucination_rate : ℚ := 2 / 100
  critical_categories : List String := ["fraud_detection", "security"]
deriving DecidableEq

/-- The mutable findings of a `QualityGateChecker` instance: the
`self.failed`, `self.warnings` and `self.passed_checks` lists. -/
structure GateState where
  failed : List String
  warnings : List String
  passed_checks : List String
deriving DecidableEq

/-- The state of a freshly constructed `QualityGateChecker` (all three
lists empty). -/
def GateState.initial : GateState :=
  { failed := [], warnings := [], passed_checks := [] }

/-- Append the findings `d` after the findings of `st`, componentwise. -/
def GateState.append (st d : GateState) : GateState :=
  { failed := st.failed ++ d.failed,
    warnings := st.warnings ++ d.warnings,
    passed_checks := st.passed_checks ++ d.passed_checks }

/-- The `metrics` sub-dictionary of one detailed test result; both keys
are optional. -/
structure Metrics where
  semantic_similarity : Option ℚ := none
  hallucination : Option Bool := none
deriving DecidableEq

/-- One entry of a `rule_validation` list as the checker reads it:
`rendered` models `str(rule)` (the Python rendering of the whole entry)
and `passed` the optional `passed` key. -/
structure RuleEntry where
  rendered : String := ""
  passed : Option Bool := none
deriving DecidableEq

/-- One element of the detailed `results` list, with every key the
checker may read, each optional. -/
structure TestResult where
  test_id : Option String := none
  category : Option String := none
  passed : Option Bool := none
  correct : Option Bool := none
  metrics : Option Metrics := none
  semantic_similarity : Option ℚ := none
  rule_validation : Option (List RuleEntry) := none
deriving DecidableEq

/-- The top-level results dictionary read by the checker and by
`post_pr_results.py`; every key is optional. -/
structure Results where
  pass_rate : Option ℚ := none
  passed : Option ℕ := none
  total_tests : Option ℕ := none
  results : Option (List TestResult) := none
  failed : Option ℕ := none
  model_used : Option String := none
  timestamp : Option String := none
deriving DecidableEq

/-! ## check_quality_gates.py — the four checks -/

/-- The threshold comparison and message recording shared by both ways a
pass rate is obtained in `check_pass_rate`. -/
def ratePart (cfg : QualityConfig) (st : GateState) (pass_rate : ℚ) :
    Bool × GateState :=
  let threshold := cfg.min_pass_rate
  if pass_rate ≥ threshold then
    (true, { st with passed_checks := st.passed_checks ++ ["Pass rate above threshold"] })
  else
    (false, { st with failed := st.failed ++ ["Pass rate below threshold"] })

/-- `QualityGateChecker.check_pass_rate`: prefer the `pass_rate` key,
else derive `passed / total_tests * 100`, else record a hard failure.
`none` models the `ZeroDivisionError` raised when the derivation divides
by a zero `total_tests`. -/
def check_pass_rate (cfg : QualityConfig) (st : GateState) (r : Results) :
    Option (Bool × GateState) :=
  match r.pass_rate with
  | some pr => some (ratePart cfg st pr)
  | none =>
    match r.passed, r.total_tests with
    | some p, some t =>
      if t = 0 then none
      else some (ratePart cfg st (((p : ℚ) / (t : ℚ)) * 100))
    | _, _ =>
      some (false,
        { st with failed := st.failed ++ ["Cannot calculate pass rate - missing data"] })

/-- The failure message `check_critical_tests` records for one failing
critical test: it names the test's id and category. -/
def criticalFailMsg (result : TestResult) : String :=
  let test_id := result.test_id.getD "unknown"
  let category := result.category.getD "unknown"
  s!"Critical test failed: {test_id} (category: {category})"

/-- The `for result in test_results` loop of `check_critical_tests`,
threading the findings, the `all_critical_passed` flag and the
`critical_count` counter. -/
def criticalLoop (cfg : QualityConfig) :
    List TestResult → GateState → Bool → ℕ → GateState × Bool × ℕ
  | [], st, allp, cnt => (st, allp, cnt)
  | result :: rest, st, allp, cnt =>
    let category := result.category.getD "unknown"
    if category ∈ cfg.critical_categories then
      let passed := result.passed.getD (result.correct.getD false)
      if passed then
        criticalLoop cfg rest st allp (cnt + 1)
      else
        criticalLoop cfg rest
          { st with failed := st.failed ++ [criticalFailMsg result] }
          false (cnt + 1)
    else
      criticalLoop cfg rest st allp cnt

/-- `QualityGateChecker.check_critical_tests`. -/
def check_critical_tests (cfg : QualityConfig) (st : GateState) (r : Results) :
    Bool × GateState :=
  let test_results := r.results.getD []
  if test_results.isEmpty then
    (true, { st with warnings := st.warnings ++ ["No detailed results for critical test check"] })
  else
    match criticalLoop cfg test_results st true 0 with
    | (st1, all_critical_passed, critical_count) =>
      if critical_count > 0 then
        if all_critical_passed then
          (all_critical_passed,
            { st1 with passed_checks :=
                st1.passed_checks ++ [s!"All {critical_count} critical tests passed"] })
        else
          (all_critical_passed, st1)
      else
        (all_critical_passed,
          { st1 with warnings := st1.warnings ++ ["No critical tests found"] })

/-- How `check_semantic_similarity` extracts one result's similarity
score: the nested `metrics.semantic_similarity` first, else the flattened
`semantic_similarity` key. -/
def simOf (result : TestResult) : Option ℚ :=
  match result.metrics.bind Metrics.semantic_similarity with
  | some sim => some sim
  | none => result.semantic_similarity

/-- `QualityGateChecker.check_semantic_similarity`. -/
def check_semantic_similarity (cfg : QualityConfig) (st : GateState) (r : Results) :
    Bool × GateState :=
  let test_results := r.results.getD []
  if test_results.isEmpty then
    (true, { st with warnings := st.warnings ++ ["No detailed results for similarity check"] })
  else
    let similarities := test_results.filterMap simOf
    if similarities.isEmpty then
      (true, { st with warnings := st.warnings ++ ["No similarity scores found"] })
    else
      let avg_similarity := similarities.sum / (similarities.length : ℚ)
      let threshold := cfg.min_semantic_similarity
      if avg_similarity ≥ threshold then
        (true, { st with passed_checks := st.passed_checks ++ ["Avg semantic similarity above threshold"] })
      else
        (false, { st with failed := st.failed ++ ["Avg semantic similarity below threshold"] })

/-- The metric branch of the hallucination loop:
`'hallucination' in metrics and metrics['hallucination']`, guarded by
`'metrics' in result`. -/
def metricHallucination (result : TestResult) : Bool :=
  match result.metrics with
  | some metrics => metrics.hallucination.getD false
  | none => false

/-- The rule branch of the hallucination loop: some `rule_validation`
entry whose rendering contains "hallucination" (after lower-casing) is
marked not-passed. `List.any` models the `break` after the first match:
the branch contributes at most once per test. -/
def ruleHallucination (result : TestResult) : Bool :=
  match result.rule_validation with
  | some rules =>
    rules.any fun rule =>
      containsSub (strToLower rule.rendered) "hallucination" && !(rule.passed.getD true)
  | none => false

/-- The counting loop of `check_hallucination_rate`: NOTE that for a
single result BOTH branches can fire, each adding 1. -/
def hallLoop : List TestResult → ℕ → ℕ
  | [], acc => acc
  | result :: rest, acc =>
    let acc1 := if metricHallucination result then acc + 1 else acc
    let acc2 := if ruleHallucination result then acc1 + 1 else acc1
    hallLoop rest acc2

/-- `QualityGateChecker.check_hallucination_rate`. -/
def check_hallucination_rate (cfg : QualityConfig) (st : GateState) (r : Results) :
    Bool × GateState :=
  let test_results := r.results.getD []
  if test_results.isEmpty then
    (true, { st with warnings := st.warnings ++ ["No detailed results for hallucination check"] })
  else
    let hallucinations := hallLoop test_results 0
    let total := test_results.length
    let hallucination_rate : ℚ := if total > 0 then (hallucinations : ℚ) / (total : ℚ) else 0
    let threshold := cfg.max_hallucination_rate
    if hallucination_rate ≤ threshold then
      (true, { st with passed_checks := st.passed_checks ++ ["Hallucination rate below threshold"] })
    else
      (false, { st with failed := st.failed ++ ["Hallucination rate above threshold"] })

/-- `QualityGateChecker.evaluate`: reset the three findings lists
(the incoming state `st` of the instance is discarded), then run the four
checks in order and return the conjunction. `none` models a raised
`ZeroDivisionError` from the pass-rate check. -/
def evaluate (cfg : QualityConfig) (st : GateState) (r : Results) :
    Option (Bool × GateState) :=
  match check_pass_rate cfg GateState.initial r with
  | none => none
  | some (c1, st1) =>
    let (c2, st2) := check_critical_tests cfg st1 r
    let (c3, st3) := check_semantic_similarity cfg st2 r
    let (c4, st4) := check_hallucination_rate cfg st3 r
    some (c1 && c2 && c3 && c4, st4)

/-- `QualityGateChecker.get_decision`: keyed on the LENGTH of the
`failed` findings list. -/
def get_decision (st : GateState) : String :=
  if st.failed.isEmpty then "✅ APPROVED"
  else if st.failed.length ≤ 2 then "⚠️ CONDITIONAL"
  else "❌ BLOCKED"

/-- The checker configuration built from the script's default
thresholds. -/
def defaultConfig : QualityConfig := {}

/-! ## run_static_evaluation.py — StaticEvaluator -/

/-- One declarative rule as `StaticEvaluator.validate_rules` reads it:
the mandatory `type` key and the optional parameter keys. -/
structure Rule where
  type : String := ""
  keywords : Option (List String) := none
  min : Option ℕ := none
  max : Option ℕ := none
  format : Option String := none
  description : Option String := none
deriving DecidableEq

/-- One entry of the list returned by `validate_rules`:
`{'rule': ..., 'passed': ...}`. -/
structure RuleResult where
  rule : String
  passed : Bool
deriving DecidableEq

/-- The body of the `for rule in rules` loop of
`StaticEvaluator.validate_rules`: dispatch on `rule['type']`, with
`passed` initialised to `False` so that unknown kinds (and unknown
`format` values) fall through to a not-passed outcome. A `max` of `none`
models the `float('inf')` default bound. -/
def validate_one_rule (response : String) (rule : Rule) : RuleResult :=
  let rule_type := rule.type
  let passed :=
    if rule_type = "contains" then
      (rule.keywords.getD []).any fun kw => containsSub (strToLower response) (strToLower kw)
    else if rule_type = "not_contains" then
      !((rule.keywords.getD []).any fun kw => containsSub (strToLower response) (strToLower kw))
    else if rule_type = "length" then
      decide (rule.min.getD 0 ≤ response.length) &&
        (match rule.max with
         | none => true
         | some max_len => decide (response.length ≤ max_len))
    else if rule_type = "format" then
      match rule.format with
      | some "currency" => containsSub response "$" || containsSub (strToLower response) "dollars"
      | some "number" => response.toList.any Char.isDigit
      | _ => false
    else
      false
  { rule := rule.description.getD rule_type, passed := passed }

/-- `StaticEvaluator.validate_rules`: one outcome appended per rule, in
order. -/
def validate_rules (response : String) (rules : List Rule) : List RuleResult :=
  rules.map (validate_one_rule response)

/-- One test case as read by `StaticEvaluator.evaluate_single`. -/
structure TestCase where
  test_id : Option String := none
  category : Option String := none
  input : Option String := none
  expected : Option String := none
  context : Option String := none
  rules : Option (List Rule) := none
deriving DecidableEq

/-- The `metrics` dictionary built by `evaluate_single`. -/
structure EvalMetrics where
  semantic_similarity : ℚ
  similarity_threshold : ℚ
  similarity_passed : Bool
deriving DecidableEq

/-- The per-test dictionary returned by `evaluate_single`. -/
structure EvalResult where
  test_id : String
  input : String
  expected : String
  generated : String
  passed : Bool
  metrics : EvalMetrics
  rule_validation : List RuleResult
deriving DecidableEq

/-- `StaticEvaluator.evaluate_single`, with the external collaborators
abstracted: `gen` models `generate_response(prompt, context)` (the OpenAI
call) and `sim` models `semantic_similarity(generated, expected)` (the
embedding computation). -/
def evaluate_single (gen : String → String → String) (sim : String → String → ℚ)
    (test_case : TestCase) : EvalResult :=
  let test_id := test_case.test_id.getD "unknown"
  let input_text := test_case.input.getD ""
  let expected := test_case.expected.getD ""
  let context := test_case.context.getD ""
  let rules := test_case.rules.getD []
  let generated := gen input_text context
  let similarity := sim generated expected
  let rule_results := if rules.isEmpty then [] else validate_rules generated rules
  let all_rules_passed := if rule_results.isEmpty then true else rule_results.all fun r => r.passed
  let similarity_passed := similarity ≥ 85 / 100
  let passed := similarity_passed && all_rules_passed
  { test_id := test_id, input := input_text, expected := expected, generated := generated,
    passed := passed,
    metrics := { semantic_similarity := similarity, similarity_threshold := 85 / 100,
                 similarity_passed := similarity_passed },
    rule_validation := rule_results }

/-- The aggregated dictionary returned by `evaluate_all`. -/
structure Summary where
  pass_rate : ℚ
  passed : ℕ
  failed : ℕ
  total_tests : ℕ
  results : List EvalResult
  model_used : String
  timestamp : String
  evaluation_type : String
deriving DecidableEq

/-- The `for test_case in test_cases` loop of `evaluate_all`,
accumulating the results list and the passed counter. -/
def evalLoop (gen : String → String → String) (sim : String → String → ℚ) :
    List TestCase → List EvalResult → ℕ → List EvalResult × ℕ
  | [], results, passed_count => (results, passed_count)
  | test_case :: rest, results, passed_count =>
    let result := evaluate_single gen sim test_case
    evalLoop gen sim rest (results ++ [result])
      (if result.passed then passed_count + 1 else passed_count)

/-- `StaticEvaluator.evaluate_all`: run every test case, then compute the
aggregates once at the end. `model` is `self.model` and `now` is
`datetime.now().isoformat()`. -/
def evaluate_all (gen : String → String → String) (sim : String → String → ℚ)
    (model now : String) (test_cases : List TestCase) : Summary :=
  match evalLoop gen sim test_cases [] 0 with
  | (results, passed_count) =>
    let pass_rate : ℚ :=
      if test_cases.isEmpty then 0
      else ((passed_count : ℚ) / (test_cases.length : ℚ)) * 100
    { pass_rate := pass_rate,
      passed := passed_count,
      failed := test_cases.length - passed_count,
      total_tests := test_cases.length,
      results := results,
      model_used := model,
      timestamp := now,
      evaluation_type := "static" }

/-! ## post_pr_results.py -/

/-- The dictionary returned by `normalize_results`. -/
structure Normalized where
  model_used : String
  timestamp : String
  pass_rate : ℚ
  passed : ℕ
  failed : ℕ
  total_tests : ℕ
deriving DecidableEq

/-- `normalize_results` from `post_pr_results.py`; `now` models
`datetime.now().isoformat()`. `none` models the `ZeroDivisionError`
raised when `pass_rate` is absent and `total_tests` is present but
zero. -/
def normalize_results (results : Results) (now : String) : Option Normalized :=
  let model_used := results.model_used.getD "gpt-4o-mini"
  let timestamp := results.timestamp.getD now
  let prOpt : Option ℚ :=
    match results.pass_rate with
    | some pr => some pr
    | none =>
      match results.passed, results.total_tests with
      | some p, some t =>
        if t = 0 then none else some (((p : ℚ) / (t : ℚ)) * 100)
      | _, _ => some 0
  match prOpt with
  | none => none
  | some pr =>
    let passed := results.passed.getD 0
    let failed := results.failed.getD 0
    some { model_used := model_used, timestamp := timestamp, pass_rate := pr,
           passed := passed, failed := failed,
           total_tests := results.total_tests.getD (passed + failed) }

/-- The status line and quality-gate decision block chosen by
`create_pr_comment`. -/
structure PRComment where
  status : String
  decision : String
deriving DecidableEq

/-- The branch structure of `create_pr_comment`: normalize, then select
the status and the decision block from the normalized pass rate alone
(the surrounding markdown boilerplate is not modelled). -/
def create_pr_comment (results : Results) (now : String) : Option PRComment :=
  match normalize_results results now with
  | none => none
  | some norm =>
    let pass_rate := norm.pass_rate
    let status :=
      if pass_rate ≥ 95 then "✅ PASSED"
      else if pass_rate ≥ 90 then "⚠️ WARNING"
      else "❌ FAILED"
    let decision :=
      if pass_rate ≥ 95 then "✅ **APPROVED FOR MERGE**"
      else if pass_rate ≥ 90 then "⚠️ **CONDITIONAL APPROVAL**"
      else "❌ **BLOCKED FROM MERGE**"
    some { status := status, decision := decision }

/-! ## Infrastructure lemmas

Every check only appends to the findings lists; the frame lemmas below
express each check's result on an arbitrary incoming state as the state
followed by the check's own contribution (its result from the initial
state). -/

@[simp]
theorem GateState.initial_append (d : GateState) : GateState.initial.append d = d := by
  simp [GateState.append, GateState.initial]

@[simp]
theorem GateState.append_initial (st : GateState) : st.append GateState.initial = st := by
  simp [GateState.append, GateState.initial]

theorem GateState.append_assoc (a b c : GateState) :
    (a.append b).append c = a.append (b.append c) := by
  simp [GateState.append]

theorem ratePart_frame (cfg : QualityConfig) (st : GateState) (pr : ℚ) :
    ratePart cfg st pr =
      ((ratePart cfg GateState.initial pr).1,
        st.append (ratePart cfg GateState.initial pr).2) := by
  unfold ratePart
  by_cases h : pr ≥ cfg.min_pass_rate <;>
    simp [h, GateState.append, GateState.initial]

theorem check_pass_rate_frame (cfg : QualityConfig) (st : GateState) (r : Results) :
    check_pass_rate cfg st r =
      (check_pass_rate cfg GateState.initial r).map fun p => (p.1, st.append p.2) := by
  unfold check_pass_rate
  cases hpr : r.pass_rate with
  | some pr => simp [ratePart_frame cfg st pr]
  | none =>
    cases hp : r.passed with
    | none => cases ht : r.total_tests <;> simp [GateState.append, GateState.initial]
    | some p =>
      cases ht : r.total_tests with
      | none => simp [GateState.append, GateState.initial]
      | some t =>
        by_cases h0 : t = 0
        · simp [h0]
        · simp [h0, ratePart_frame cfg st]

theorem criticalLoop_frame (cfg : QualityConfig) (l : List TestResult) :
    ∀ (st : GateState) (allp : Bool) (cnt : ℕ),
      criticalLoop cfg l st allp cnt =
        (st.append (criticalLoop cfg l GateState.initial allp cnt).1,
          (criticalLoop cfg l GateState.initial allp cnt).2) := by
  induction l with
  | nil => intro st allp cnt; simp [criticalLoop]
  | cons result rest ih =>
    intro st allp cnt
    simp only [criticalLoop]
    by_cases hc : result.category.getD "unknown" ∈ cfg.critical_categories
    · by_cases hp : result.passed.getD (result.correct.getD false)
      · simp only [hc, hp, if_true]
        exact ih st allp (cnt + 1)
      · simp only [hc, hp, if_true, Bool.false_eq_true, if_false]
        rw [ih { st with failed := st.failed ++ [criticalFailMsg result] },
          ih { GateState.initial with failed := GateState.initial.failed ++ [criticalFailMsg result] }]
        simp [GateState.append, GateState.initial]
    · simp only [hc, if_false]
      exact ih st allp cnt

theorem check_critical_tests_frame (cfg : QualityConfig) (st : GateState) (r : Results) :
    check_critical_tests cfg st r =
      ((check_critical_tests cfg GateState.initial r).1,
        st.append (check_critical_tests cfg GateState.initial r).2) := by
  unfold check_critical_tests
  by_cases he : (r.results.getD []).isEmpty
  · simp [he, GateState.append, GateState.initial]
  · simp only [he, if_false, Bool.false_eq_true]
    rw [criticalLoop_frame cfg (r.results.getD []) st true 0]
    rcases hl : criticalLoop cfg (r.results.getD []) GateState.initial true 0 with ⟨st1, allp, cnt⟩
    by_cases hcnt : cnt > 0
    · by_cases hallp : allp
      · simp [hcnt, hallp, GateState.append]
      · simp [hcnt, hallp]
    · simp [hcnt, GateState.append]

theorem check_semantic_similarity_frame (cfg : QualityConfig) (st : GateState) (r : Results) :
    check_semantic_similarity cfg st r =
      ((check_semantic_similarity cfg GateState.initial r).1,
        st.append (check_semantic_similarity cfg GateState.initial r).2) := by
  unfold check_semantic_similarity
  by_cases he : (r.results.getD []).isEmpty
  · simp [he, GateState.append, GateState.initial]
  · by_cases hs : ((r.results.getD []).filterMap simOf).isEmpty
    · simp [he, hs, GateState.append, GateState.initial]
    · by_cases hv :
        ((r.results.getD []).filterMap simOf).sum / (((r.results.getD []).filterMap simOf).length : ℚ)
          ≥ cfg.min_semantic_similarity <;>
        simp [he, hs, hv, GateState.append, GateState.initial]

theorem check_hallucination_rate_frame (cfg : QualityConfig) (st : GateState) (r : Results) :
    check_hallucination_rate cfg st r =
      ((check_hallucination_rate cfg GateState.initial r).1,
        st.append (check_hallucination_rate cfg GateState.initial r).2) := by
  unfold check_hallucination_rate
  by_cases he : (r.results.getD []).isEmpty
  · simp [he, GateState.append, GateState.initial]
  · by_cases hv :
      (if (r.results.getD []).length > 0 then
          ((hallLoop (r.results.getD []) 0 : ℚ) / ((r.results.getD []).length : ℚ))
        else 0) ≤ cfg.max_hallucination_rate <;>
      simp [he, hv, GateState.append, GateState.initial]

theorem criticalLoop_false (cfg : QualityConfig) (l : List TestResult) :
    ∀ (st : GateState) (cnt : ℕ), (criticalLoop cfg l st false cnt).2.1 = false := by
  induction l with
  | nil => intro st cnt; simp [criticalLoop]
  | cons result rest ih =>
    intro st cnt
    simp only [criticalLoop]
    by_cases hc : result.category.getD "unknown" ∈ cfg.critical_categories
    · by_cases hp : result.passed.getD (result.correct.getD false) <;>
        simp [hc, hp, ih]
    · simp [hc, ih]

theorem criticalLoop_fail_found (cfg : QualityConfig) (t : TestResult) (l : List TestResult)
    (ht : t ∈ l) (hc : t.category.getD "unknown" ∈ cfg.critical_categories)
    (hp : t.passed.getD (t.correct.getD false) = false) :
    ∀ (st : GateState) (allp : Bool) (cnt : ℕ),
      (criticalLoop cfg l st allp cnt).2.1 = false ∧
      criticalFailMsg t ∈ (criticalLoop cfg l st allp cnt).1.failed := by
  induction l with
  | nil => cases ht
  | cons result rest ih =>
    intro st allp cnt
    rcases List.mem_cons.mp ht with heq | hmem
    · subst heq
      simp only [criticalLoop, hc, if_true, hp, Bool.false_eq_true, if_false]
      refine ⟨criticalLoop_false cfg rest _ _, ?_⟩
      rw [criticalLoop_frame]
      simp [GateState.append]
    · simp only [criticalLoop]
      by_cases hc2 : result.category.getD "unknown" ∈ cfg.critical_categories
      · by_cases hp2 : result.passed.getD (result.correct.getD false)
        · simp only [hc2, hp2, if_true]
          exact ih hmem st allp (cnt + 1)
        · simp only [hc2, hp2, if_true, Bool.false_eq_true, if_false]
          exact ih hmem _ false (cnt + 1)
      · simp only [hc2, if_false]
        exact ih hmem st allp cnt

theorem criticalLoop_no_critical (cfg : QualityConfig) (l : List TestResult)
    (h : ∀ t ∈ l, t.category.getD "unknown" ∉ cfg.critical_categories) :
    ∀ (st : GateState) (allp : Bool) (cnt : ℕ),
      criticalLoop cfg l st allp cnt = (st, allp, cnt) := by
  induction l with
  | nil => intro st allp cnt; simp [criticalLoop]
  | cons result rest ih =>
    intro st allp cnt
    have hr := h result (List.mem_cons_self result rest)
    simp only [criticalLoop, hr, if_false]
    exact ih (fun t htl => h t (List.mem_cons_of_mem result htl)) st allp cnt

/-- The result and recorded failures of `check_critical_tests` are those
of its scanning loop: the post-loop branches only touch `passed_checks`
and `warnings`. -/
theorem check_critical_tests_loop (cfg : QualityConfig) (st : GateState) (r : Results)
    (hne : (r.results.getD []).isEmpty = false) :
    (check_critical_tests cfg st r).1 =
      (criticalLoop cfg (r.results.getD []) st true 0).2.1 ∧
    (check_critical_tests cfg st r).2.failed =
      (criticalLoop cfg (r.results.getD []) st true 0).1.failed := by
  unfold check_critical_tests
  simp only [hne, Bool.false_eq_true, if_false]
  rcases hl : criticalLoop cfg (r.results.getD []) st true 0 with ⟨st1, allp, cnt⟩
  by_cases hcnt : cnt > 0
  · by_cases hallp : allp <;> simp [hcnt, hallp]
  · simp [hcnt]

/-- The contribution of one detailed result to the hallucination count:
one from the truthy metric, plus one from a matching not-passed rule. -/
def hallContribution (result : TestResult) : ℕ :=
  (if metricHallucination result then 1 else 0) +
    (if ruleHallucination result then 1 else 0)

theorem hallLoop_eq (l : List TestResult) :
    ∀ acc : ℕ, hallLoop l acc = acc + (l.map hallContribution).sum := by
  induction l with
  | nil => intro acc; simp [hallLoop]
  | cons result rest ih =>
    intro acc
    simp only [hallLoop]
    rw [ih]
    cases hm : metricHallucination result <;>
      cases hr : ruleHallucination result <;>
        simp [hallContribution, hm, hr] <;> omega

theorem evalLoop_len (gen : String → String → String) (sim : String → String → ℚ)
    (l : List TestCase) :
    ∀ (res : List EvalResult) (cnt : ℕ),
      (evalLoop gen sim l res cnt).1.length = res.length + l.length := by
  induction l with
  | nil => intro res cnt; simp [evalLoop]
  | cons tc rest ih =>
    intro res cnt
    simp only [evalLoop]
    rw [ih]
    simp
    omega

theorem evalLoop_cnt_le (gen : String → String → String) (sim : String → String → ℚ)
    (l : List TestCase) :
    ∀ (res : List EvalResult) (cnt : ℕ),
      (evalLoop gen sim l res cnt).2 ≤ cnt + l.length := by
  induction l with
  | nil => intro res cnt; simp [evalLoop]
  | cons tc rest ih =>
    intro res cnt
    simp only [evalLoop, List.length_cons]
    cases hp : (evaluate_single gen sim tc).passed
    · rw [if_neg (by simp [hp])]
      have h := ih (res ++ [evaluate_single gen sim tc]) cnt
      omega
    · rw [if_pos (by simp [hp])]
      have h := ih (res ++ [evaluate_single gen sim tc]) (cnt + 1)
      omega

theorem zip_map_self {α β : Type} (f : α → β) (l : List α) :
    ∀ pr ∈ l.zip (l.map f), pr.2 = f pr.1 := by
  induction l with
  | nil => intro pr h; cases h
  | cons a rest ih =>
    intro pr h
    rcases List.mem_cons.mp h with heq | hmem
    · subst heq; rfl
    · exact ih pr hmem

theorem validate_one_rule_unknown (response : String) (rule : Rule)
    (h : rule.type ∉ (["contains", "not_contains", "length", "format"] : List String)) :
    (validate_one_rule response rule).passed = false := by
  simp only [List.mem_cons, List.mem_singleton, not_or] at h
  obtain ⟨h1, h2, h3, h4⟩ := h
  simp [validate_one_rule, h1, h2, h3, h4]

theorem check_pass_rate_none_iff (cfg : QualityConfig) (st : GateState) (r : Results) :
    check_pass_rate cfg st r = none ↔
      r.pass_rate = none ∧ r.passed.isSome ∧ r.total_tests = some 0 := by
  unfold check_pass_rate
  cases hpr : r.pass_rate with
  | some pr => simp
  | none =>
    cases hp : r.passed with
    | none => cases ht : r.total_tests <;> simp
    | some p =>
      cases ht : r.total_tests with
      | none => simp
      | some t =>
        by_cases h0 : t = 0 <;> simp [h0]

/-! ## Concrete inputs used by the counterexamples and witnesses -/

/-- A detailed result in the critical category `fraud_detection`, marked
not-passed. -/
def failingFraudTest (i : String) : TestResult :=
  { test_id := some i, category := some "fraud_detection", passed := some false }

/-- Results with a perfect aggregate pass rate but three failing critical
tests: only the critical-category check fails, yet it records three
failure entries. -/
def c1Input : Results :=
  { pass_rate := some 100,
    results := some [failingFraudTest "t1", failingFraudTest "t2", failingFraudTest "t3"] }

/-- A detailed result that satisfies BOTH hallucination conditions: a
truthy hallucination metric and a not-passed rule-validation entry whose
rendering mentions "hallucination". -/
def c2Flagged : TestResult :=
  { metrics := some { hallucination := some true },
    rule_validation := some
      [{ rendered := "rule: No hallucination, passed: False", passed := some false }] }

/-- A detailed result with no hallucination signal at all. -/
def c2Clean : TestResult := {}

/-- A configuration whose hallucination threshold separates the claimed
count (at most one per test) from the implemented count. -/
def c2Config : QualityConfig := { max_hallucination_rate := 1 / 2 }

/-- Two detailed results, one doubly-flagged and one clean. -/
def c2Input : Results := { results := some [c2Flagged, c2Clean] }

/-- Results with a perfect aggregate pass rate and five failing critical
tests: `evaluate` records five failure entries. -/
def c3Input : Results :=
  { pass_rate := some 100,
    results := some [failingFraudTest "t1", failingFraudTest "t2", failingFraudTest "t3",
      failingFraudTest "t4", failingFraudTest "t5"] }

/-! ## Claim C1 -/

/-- Claim C1, counterexample. The claim says the decision is determined by
the number of FAILED CHECKS (1 or 2 failed checks yield CONDITIONAL). On
`c1Input` exactly one of the four checks fails (the critical-category
check; the pass-rate, similarity and hallucination checks all pass), so
the claim predicts CONDITIONAL — but `get_decision` is keyed on the number
of failure MESSAGE entries, of which the one failing check recorded three,
and the decision is BLOCKED. -/
theorem c1_counterexample :
    (check_pass_rate defaultConfig GateState.initial c1Input).map Prod.fst = some true ∧
    (check_critical_tests defaultConfig GateState.initial c1Input).1 = false ∧
    (check_semantic_similarity defaultConfig GateState.initial c1Input).1 = true ∧
    (check_hallucination_rate defaultConfig GateState.initial c1Input).1 = true ∧
    (evaluate defaultConfig GateState.initial c1Input).map
        (fun p => (p.1, p.2.failed.length, get_decision p.2)) =
      some (false, 3, "❌ BLOCKED") ∧
    "❌ BLOCKED" ≠ "⚠️ CONDITIONAL" := by
  refine ⟨?_, ?_, ?_, ?_, ?_, by decide⟩
  · norm_num [check_pass_rate, ratePart, defaultConfig, c1Input, GateState.initial]
  · norm_num [check_critical_tests, criticalLoop, defaultConfig, c1Input,
      failingFraudTest, GateState.initial]
  · norm_num [check_semantic_similarity, simOf, defaultConfig, c1Input,
      failingFraudTest, GateState.initial]
  · norm_num [check_hallucination_rate, hallLoop, metricHallucination, ruleHallucination,
      defaultConfig, c1Input, failingFraudTest, GateState.initial]
  · norm_num [evaluate, check_pass_rate, ratePart, check_critical_tests, criticalLoop,
      check_semantic_similarity, simOf, check_hallucination_rate, hallLoop,
      metricHallucination, ruleHallucination, get_decision,
      defaultConfig, c1Input, failingFraudTest, GateState.initial]
    exact fun h => absurd h (List.cons_ne_nil _ _)

/-- Claim C1 (amended): after one call to `evaluate()` that returns, the
decision returned by `get_decision()` is determined by the number of
ENTRIES of the `failed` findings list (to which one failing check may
contribute several entries): 0 entries yield APPROVED, 1 or 2 entries
yield CONDITIONAL, and 3 or more entries yield BLOCKED. -/
theorem c1_decision_amended (cfg : QualityConfig) (st0 : GateState) (r : Results)
    (b : Bool) (st : GateState) (h : evaluate cfg st0 r = some (b, st)) :
    get_decision st =
      if st.failed.length = 0 then "✅ APPROVED"
      else if st.failed.length ≤ 2 then "⚠️ CONDITIONAL"
      else "❌ BLOCKED" := by
  rcases st with ⟨failedList, w, p⟩
  rcases failedList with _ | ⟨a, l⟩ <;> simp [get_decision]

/-- The findings produced by `evaluate` on `c1Input`: three critical
failures, one similarity warning, two passed checks. -/
def c1EvalSt : GateState :=
  { failed := [criticalFailMsg (failingFraudTest "t1"), criticalFailMsg (failingFraudTest "t2"),
      criticalFailMsg (failingFraudTest "t3")],
    warnings := ["No similarity scores found"],
    passed_checks := ["Pass rate above threshold", "Hallucination rate below threshold"] }

/-- Witness: `c1_decision_amended` applied to the concrete run on
`c1Input`. -/
theorem c1_decision_amended_witness :
    get_decision c1EvalSt =
      if c1EvalSt.failed.length = 0 then "✅ APPROVED"
      else if c1EvalSt.failed.length ≤ 2 then "⚠️ CONDITIONAL"
      else "❌ BLOCKED" :=
  c1_decision_amended defaultConfig GateState.initial c1Input false c1EvalSt (by
    norm_num [evaluate, check_pass_rate, ratePart, check_critical_tests, criticalLoop,
      check_semantic_similarity, simOf, check_hallucination_rate, hallLoop,
      metricHallucination, ruleHallucination, c1EvalSt,
      defaultConfig, c1Input, failingFraudTest, GateState.initial])

/-! ## Claim C2 -/

/-- Claim C2, counterexample. The claim says each detailed test result
contributes at most 1 to the hallucination count even when both the
metric condition and the rule condition hold, and that the check passes
iff count/total is at most the threshold. On `c2Input` (one
doubly-flagged test, one clean test, threshold 1/2) the claimed count is
1 — one test qualifies — giving rate 1/2 ≤ 1/2, so the claim predicts a
pass; but the loop counts the doubly-flagged test twice (count 2, rate 1)
and the check fails. -/
theorem c2_counterexample :
    hallLoop [c2Flagged, c2Clean] 0 = 2 ∧
    ([c2Flagged, c2Clean].countP fun t => metricHallucination t || ruleHallucination t) = 1 ∧
    ((1 : ℚ) / 2 ≤ c2Config.max_hallucination_rate) ∧
    (check_hallucination_rate c2Config GateState.initial c2Input).1 = false := by
  have hm : metricHallucination c2Flagged = true := by decide
  have hr : ruleHallucination c2Flagged = true := by decide
  have hmc : metricHallucination c2Clean = false := by decide
  have hrc : ruleHallucination c2Clean = false := by decide
  refine ⟨by decide, by decide, by norm_num [c2Config], ?_⟩
  norm_num [check_hallucination_rate, hallLoop, hm, hr, hmc, hrc, c2Config, c2Input,
    GateState.initial]

/-- Claim C2 (amended): each detailed test result contributes at most 1
per CONDITION — 1 for a truthy hallucination metric plus 1 for a
not-passed rule-validation entry mentioning "hallucination" (rule
scanning stops at the first match) — so a test satisfying both conditions
counts twice; the check passes iff count/total is at most
`max_hallucination_rate`. -/
theorem c2_hallucination_amended (cfg : QualityConfig) (st : GateState) (r : Results)
    (hne : (r.results.getD []).isEmpty = false) :
    hallLoop (r.results.getD []) 0 = ((r.results.getD []).map hallContribution).sum ∧
    (∀ t ∈ r.results.getD [], hallContribution t ≤ 2) ∧
    ((check_hallucination_rate cfg st r).1 = true ↔
      (hallLoop (r.results.getD []) 0 : ℚ) / ((r.results.getD []).length : ℚ)
        ≤ cfg.max_hallucination_rate) := by
  refine ⟨by simpa using hallLoop_eq (r.results.getD []) 0, ?_, ?_⟩
  · intro t _
    unfold hallContribution
    by_cases hm : metricHallucination t <;> by_cases hr : ruleHallucination t <;>
      simp [hm, hr]
  · have hlen : 0 < (r.results.getD []).length := by
      cases hl : r.results.getD [] with
      | nil => rw [hl] at hne; simp at hne
      | cons a rest => simp [hl]
    unfold check_hallucination_rate
    simp only [hne, Bool.false_eq_true, if_false, hlen, if_pos]
    by_cases hv :
        (hallLoop (r.results.getD []) 0 : ℚ) / ((r.results.getD []).length : ℚ)
          ≤ cfg.max_hallucination_rate <;>
      simp [hv]

/-- Witness for `c2_hallucination_amended` at the concrete input
`c2Input`. -/
theorem c2_hallucination_amended_witness :
    hallLoop (c2Input.results.getD []) 0 =
      ((c2Input.results.getD []).map hallContribution).sum ∧
    (∀ t ∈ c2Input.results.getD [], hallContribution t ≤ 2) ∧
    ((check_hallucination_rate c2Config GateState.initial c2Input).1 = true ↔
      (hallLoop (c2Input.results.getD []) 0 : ℚ) / ((c2Input.results.getD []).length : ℚ)
        ≤ c2Config.max_hallucination_rate) :=
  c2_hallucination_amended c2Config GateState.initial c2Input (by decide)

/-! ## Claim C3 -/

/-- Claim C3, counterexample. The claim says `failed_checks` contains at
most 4 entries after `evaluate()`. On `c3Input` (five failing critical
tests) the single failing check records five entries. -/
theorem c3_counterexample :
    (evaluate defaultConfig GateState.initial c3Input).map (fun p => p.2.failed.length) =
      some 5 ∧
    ¬ (5 : ℕ) ≤ 4 := by
  refine ⟨?_, by decide⟩
  norm_num [evaluate, check_pass_rate, ratePart, check_critical_tests, criticalLoop,
    check_semantic_similarity, simOf, check_hallucination_rate, hallLoop,
    metricHallucination, ruleHallucination,
    defaultConfig, c3Input, failingFraudTest, GateState.initial]

/-- Claim C3 (amended): whenever `evaluate()` returns, all four checks
have run — the returned boolean is the conjunction of the four checks'
individual results, and the final `failed` list is the concatenation of
the four checks' own failure entries (so every check's findings are
reported even when an earlier check fails). The pass-rate, similarity and
hallucination checks contribute at most one entry each, but the
critical-category check contributes one entry per failing critical test,
so `failed` may contain MORE than 4 entries. -/
theorem c3_evaluate_amended (cfg : QualityConfig) (st0 : GateState) (r : Results)
    (b : Bool) (st : GateState) (b1 : Bool) (st1 : GateState)
    (h : evaluate cfg st0 r = some (b, st))
    (h1 : check_pass_rate cfg GateState.initial r = some (b1, st1)) :
    b = (b1 && (check_critical_tests cfg GateState.initial r).1 &&
          (check_semantic_similarity cfg GateState.initial r).1 &&
          (check_hallucination_rate cfg GateState.initial r).1) ∧
    st.failed = st1.failed ++
      (check_critical_tests cfg GateState.initial r).2.failed ++
      (check_semantic_similarity cfg GateState.initial r).2.failed ++
      (check_hallucination_rate cfg GateState.initial r).2.failed := by
  rcases hcct : check_critical_tests cfg GateState.initial r with ⟨c2v, d2⟩
  rcases hcs : check_semantic_similarity cfg GateState.initial r with ⟨c3v, d3⟩
  rcases hch : check_hallucination_rate cfg GateState.initial r with ⟨c4v, d4⟩
  have h2 : check_critical_tests cfg st1 r = (c2v, st1.append d2) := by
    rw [check_critical_tests_frame cfg st1 r, hcct]
  have h3 : check_semantic_similarity cfg (st1.append d2) r =
      (c3v, (st1.append d2).append d3) := by
    rw [check_semantic_similarity_frame cfg (st1.append d2) r, hcs]
  have h4 : check_hallucination_rate cfg ((st1.append d2).append d3) r =
      (c4v, ((st1.append d2).append d3).append d4) := by
    rw [check_hallucination_rate_frame cfg ((st1.append d2).append d3) r, hch]
  have hev : evaluate cfg st0 r =
      some (b1 && c2v && c3v && c4v, ((st1.append d2).append d3).append d4) := by
    simp only [evaluate, h1, h2, h3, h4]
  rw [hev] at h
  simp only [Option.some.injEq, Prod.mk.injEq] at h
  obtain ⟨hb, hst⟩ := h
  subst hb
  subst hst
  exact ⟨rfl, by simp [GateState.append, List.append_assoc]⟩

/-- The findings produced by `evaluate` on `c3Input`: five critical
failures, one similarity warning, two passed checks. -/
def c3EvalSt : GateState :=
  { failed := [criticalFailMsg (failingFraudTest "t1"), criticalFailMsg (failingFraudTest "t2"),
      criticalFailMsg (failingFraudTest "t3"), criticalFailMsg (failingFraudTest "t4"),
      criticalFailMsg (failingFraudTest "t5")],
    warnings := ["No similarity scores found"],
    passed_checks := ["Pass rate above threshold", "Hallucination rate below threshold"] }

/-- The findings of the pass-rate check alone on `c3Input`. -/
def c3RateSt : GateState :=
  { failed := [], warnings := [], passed_checks := ["Pass rate above threshold"] }

/-- Witness: `c3_evaluate_amended` applied to the concrete run on
`c3Input`. -/
theorem c3_evaluate_amended_witness :
    false = (true && (check_critical_tests defaultConfig GateState.initial c3Input).1 &&
          (check_semantic_similarity defaultConfig GateState.initial c3Input).1 &&
          (check_hallucination_rate defaultConfig GateState.initial c3Input).1) ∧
    c3EvalSt.failed = c3RateSt.failed ++
      (check_critical_tests defaultConfig GateState.initial c3Input).2.failed ++
      (check_semantic_similarity defaultConfig GateState.initial c3Input).2.failed ++
      (check_hallucination_rate defaultConfig GateState.initial c3Input).2.failed :=
  c3_evaluate_amended defaultConfig GateState.initial c3Input false c3EvalSt
    true c3RateSt
    (by
      norm_num [evaluate, check_pass_rate, ratePart, check_critical_tests, criticalLoop,
        check_semantic_similarity, simOf, check_hallucination_rate, hallLoop,
        metricHallucination, ruleHallucination, c3EvalSt,
        defaultConfig, c3Input, failingFraudTest, GateState.initial])
    (by
      norm_num [check_pass_rate, ratePart, c3RateSt, defaultConfig, c3Input,
        GateState.initial])

/-! ## Claim C4 -/

/-- Claim C4, confirmed: (a) for every detailed test result whose
category is among the critical categories and whose effective passed flag
(`passed`, else legacy `correct`, else not-passed) is false, the
critical-category check returns false and records the failure message
naming that test's id and category; (b) when detailed results exist but
none falls in a critical category, the check returns true and the
"No critical tests found" warning is emitted. -/
theorem c4_critical_check (cfg : QualityConfig) (st : GateState) (r : Results) :
    (∀ t ∈ r.results.getD [],
        t.category.getD "unknown" ∈ cfg.critical_categories →
        t.passed.getD (t.correct.getD false) = false →
        (check_critical_tests cfg st r).1 = false ∧
        criticalFailMsg t ∈ (check_critical_tests cfg st r).2.failed) ∧
    ((r.results.getD []).isEmpty = false →
      (∀ t ∈ r.results.getD [], t.category.getD "unknown" ∉ cfg.critical_categories) →
      (check_critical_tests cfg st r).1 = true ∧
      "No critical tests found" ∈ (check_critical_tests cfg st r).2.warnings) := by
  constructor
  · intro t ht hc hp
    have hne : (r.results.getD []).isEmpty = false := by
      cases hl : r.results.getD [] with
      | nil => rw [hl] at ht; cases ht
      | cons a rest => simp
    obtain ⟨hbool, hfailed⟩ := check_critical_tests_loop cfg st r hne
    obtain ⟨hfalse, hmem⟩ :=
      criticalLoop_fail_found cfg t (r.results.getD []) ht hc hp st true 0
    exact ⟨hbool.trans hfalse, hfailed ▸ hmem⟩
  · intro hne hnone
    have hloop := criticalLoop_no_critical cfg (r.results.getD []) hnone st true 0
    unfold check_critical_tests
    simp only [hne, Bool.false_eq_true, if_false, hloop]
    simp

/-- A critical-category test marked not-passed, as in the spec's worked
example. -/
def c4FailTest : TestResult :=
  { test_id := some "test_003", category := some "fraud_detection", passed := some false }

/-- Results whose only detailed test is a failing critical one. -/
def c4FailInput : Results := { results := some [c4FailTest] }

/-- A detailed test in a non-critical category. -/
def c4NoCritTest : TestResult :=
  { test_id := some "t1", category := some "transactions", passed := some true }

/-- Results whose only detailed test is in a non-critical category. -/
def c4NoCritInput : Results := { results := some [c4NoCritTest] }

/-- Witness: `c4_critical_check` applied at the two concrete inputs. -/
theorem c4_critical_check_witness :
    ((check_critical_tests defaultConfig GateState.initial c4FailInput).1 = false ∧
      criticalFailMsg c4FailTest ∈
        (check_critical_tests defaultConfig GateState.initial c4FailInput).2.failed) ∧
    ((check_critical_tests defaultConfig GateState.initial c4NoCritInput).1 = true ∧
      "No critical tests found" ∈
        (check_critical_tests defaultConfig GateState.initial c4NoCritInput).2.warnings) :=
  ⟨(c4_critical_check defaultConfig GateState.initial c4FailInput).1 c4FailTest
      (by decide) (by decide) (by decide),
    (c4_critical_check defaultConfig GateState.initial c4NoCritInput).2
      (by decide) (by decide)⟩

/-! ## Claim C5 -/

/-- Claim C5, counterexample. The claim says that whenever `pass_rate` is
absent and both `passed` and `total_tests` are present, the check uses
the derived rate `100 * passed / total_tests` and returns a boolean. With
`passed = 0` and `total_tests = 0` present, the check does not return: it
raises `ZeroDivisionError` (modelled `none`). -/
theorem c5_counterexample :
    check_pass_rate defaultConfig GateState.initial
      { passed := some 0, total_tests := some 0 } = none := by decide

/-- Claim C5 (amended): the pass-rate check uses the explicit `pass_rate`
field when present; otherwise, when both `passed` and `total_tests` are
present and `total_tests` is nonzero, it uses `100 * passed /
total_tests`; when both are present but `total_tests` is zero it raises
`ZeroDivisionError`; when neither source is available it records a hard
failure mentioning missing data and returns false; in the first two cases
it returns true iff the pass rate is at least `min_pass_rate`. -/
theorem c5_pass_rate_amended (cfg : QualityConfig) (st : GateState) (r : Results) :
    (∀ pr, r.pass_rate = some pr →
        (check_pass_rate cfg st r).map Prod.fst =
          some (decide (pr ≥ cfg.min_pass_rate))) ∧
    (∀ p t, r.pass_rate = none → r.passed = some p → r.total_tests = some t → t ≠ 0 →
        (check_pass_rate cfg st r).map Prod.fst =
          some (decide (((p : ℚ) / (t : ℚ)) * 100 ≥ cfg.min_pass_rate))) ∧
    (∀ p, r.pass_rate = none → r.passed = some p → r.total_tests = some 0 →
        check_pass_rate cfg st r = none) ∧
    (r.pass_rate = none → (r.passed = none ∨ r.total_tests = none) →
        check_pass_rate cfg st r =
          some (false,
            { st with failed := st.failed ++ ["Cannot calculate pass rate - missing data"] })) := by
  refine ⟨?_, ?_, ?_, ?_⟩
  · intro pr hpr
    unfold check_pass_rate ratePart
    rw [hpr]
    by_cases hge : pr ≥ cfg.min_pass_rate <;> simp [hge]
  · intro p t hpr hp ht h0
    unfold check_pass_rate ratePart
    rw [hpr, hp, ht]
    by_cases hge : ((p : ℚ) / (t : ℚ)) * 100 ≥ cfg.min_pass_rate <;> simp [h0, hge]
  · intro p hpr hp ht
    unfold check_pass_rate
    rw [hpr, hp, ht]
    simp
  · intro hpr hmiss
    unfold check_pass_rate
    rw [hpr]
    cases hp : r.passed with
    | none => cases ht : r.total_tests <;> rfl
    | some p =>
      cases ht : r.total_tests with
      | none => rfl
      | some t =>
        exfalso
        rcases hmiss with h | h
        · rw [hp] at h; cases h
        · rw [ht] at h; cases h

/-- Witness: `c5_pass_rate_amended` applied at concrete inputs covering
each of the four cases. -/
theorem c5_pass_rate_amended_witness :
    ((check_pass_rate defaultConfig GateState.initial
        ({ pass_rate := some 96 } : Results)).map Prod.fst =
      some (decide ((96 : ℚ) ≥ defaultConfig.min_pass_rate))) ∧
    ((check_pass_rate defaultConfig GateState.initial
        ({ passed := some 3, total_tests := some 4 } : Results)).map Prod.fst =
      some (decide ((((3 : ℕ) : ℚ) / ((4 : ℕ) : ℚ)) * 100 ≥ defaultConfig.min_pass_rate))) ∧
    (check_pass_rate defaultConfig GateState.initial
        ({ passed := some 3, total_tests := some 0 } : Results) = none) ∧
    (check_pass_rate defaultConfig GateState.initial ({ passed := some 3 } : Results) =
      some (false,
        { GateState.initial with
            failed := GateState.initial.failed ++ ["Cannot calculate pass rate - missing data"] })) :=
  ⟨(c5_pass_rate_amended defaultConfig GateState.initial { pass_rate := some 96 }).1
      96 (by decide),
    (c5_pass_rate_amended defaultConfig GateState.initial
        { passed := some 3, total_tests := some 4 }).2.1 3 4 (by decide) (by decide)
      (by decide) (by decide),
    (c5_pass_rate_amended defaultConfig GateState.initial
        { passed := some 3, total_tests := some 0 }).2.2.1 3 (by decide) (by decide)
      (by decide),
    (c5_pass_rate_amended defaultConfig GateState.initial { passed := some 3 }).2.2.2
      (by decide) (Or.inr (by decide))⟩

/-! ## Claim C6 -/

/-- Claim C6, counterexample. The claim says `evaluate()` never raises,
naming `total_tests = 0` among the inputs it covers. With `pass_rate`
absent, `passed` present and `total_tests = 0`, the pass-rate derivation
divides by zero and `evaluate` raises `ZeroDivisionError`
(modelled `none`). -/
theorem c6_counterexample :
    evaluate defaultConfig GateState.initial
      { passed := some 1, total_tests := some 0 } = none := by decide

/-- Claim C6 (amended): `evaluate()` returns without raising for every
results input EXCEPT exactly those where the pass rate must be derived
and the division raises: `pass_rate` absent, `passed` present, and
`total_tests` present and equal to 0. On every other input — including
absent, empty or partial fields — problems degrade to warnings or failed
checks. -/
theorem c6_no_raise_amended (cfg : QualityConfig) (st : GateState) (r : Results) :
    (evaluate cfg st r).isSome ↔
      ¬ (r.pass_rate = none ∧ r.passed.isSome ∧ r.total_tests = some 0) := by
  rw [← check_pass_rate_none_iff cfg GateState.initial r]
  cases hc : check_pass_rate cfg GateState.initial r with
  | none => simp [evaluate, hc]
  | some p =>
    rcases p with ⟨c1, st1⟩
    simp [evaluate, hc]

/-! ## Claim C7 -/

/-- Claim C7, confirmed: `evaluate` resets the three findings lists at
entry, so its result — the returned boolean and the final
`passed_checks` / `failed` / `warnings` — is the same from ANY prior
instance state, in particular after a previous `evaluate` call on a
different input and on a fresh instance (`GateState.initial`): no leakage
from the first call. -/
theorem c7_reset (cfg : QualityConfig) (st1 st2 : GateState) (r : Results) :
    evaluate cfg st1 r = evaluate cfg st2 r := rfl

/-! ## Claim C8 -/

/-- Claim C8, confirmed: for every list of test cases (and any behaviour
of the external generation and similarity collaborators), the summary
returned by `evaluate_all` satisfies `passed + failed = total_tests`,
`total_tests = length of the results list = length of the input`, and
`pass_rate = 100 * passed / total_tests` (0 when the total is 0, so in
particular the empty list yields `total_tests = 0`, `pass_rate = 0`
without error). -/
theorem c8_aggregator_invariants (gen : String → String → String)
    (sim : String → String → ℚ) (model now : String) (test_cases : List TestCase) :
    (evaluate_all gen sim model now test_cases).passed +
        (evaluate_all gen sim model now test_cases).failed =
      (evaluate_all gen sim model now test_cases).total_tests ∧
    (evaluate_all gen sim model now test_cases).total_tests =
      (evaluate_all gen sim model now test_cases).results.length ∧
    (evaluate_all gen sim model now test_cases).results.length = test_cases.length ∧
    (evaluate_all gen sim model now test_cases).pass_rate =
      (if (evaluate_all gen sim model now test_cases).total_tests = 0 then 0
       else 100 * ((evaluate_all gen sim model now test_cases).passed : ℚ) /
         ((evaluate_all gen sim model now test_cases).total_tests : ℚ)) := by
  have hlen := evalLoop_len gen sim test_cases [] 0
  have hcnt := evalLoop_cnt_le gen sim test_cases [] 0
  rcases hloop : evalLoop gen sim test_cases [] 0 with ⟨results, passed_count⟩
  rw [hloop] at hlen hcnt
  simp only [List.length_nil, Nat.zero_add] at hlen hcnt
  unfold evaluate_all
  rw [hloop]
  refine ⟨by simpa using Nat.add_sub_cancel' hcnt, by simpa using hlen.symm, by simpa using hlen, ?_⟩
  by_cases hz : test_cases.length = 0
  · have : test_cases.isEmpty = true := by
      cases test_cases with
      | nil => rfl
      | cons a l => simp at hz
    simp [this, hz]
  · have : test_cases.isEmpty = false := by
      cases test_cases with
      | nil => simp at hz
      | cons a l => rfl
    simp only [this, Bool.false_eq_true, if_false, hz]
    rw [div_mul_eq_mul_div, mul_comm]

/-! ## Claim C9 -/

/-- Claim C9, confirmed: `validate_rules` produces exactly one outcome
per rule (in order), and every rule whose kind is none of `contains`,
`not_contains`, `length`, `format` yields an outcome marked not-passed —
the model is total, so a malformed kind degrades the test instead of
raising. -/
theorem c9_rule_validator (response : String) (rules : List Rule) :
    (validate_rules response rules).length = rules.length ∧
    ∀ pr ∈ rules.zip (validate_rules response rules),
      pr.1.type ∉ (["contains", "not_contains", "length", "format"] : List String) →
      pr.2.passed = false := by
  constructor
  · simp [validate_rules]
  · intro pr hpr hkind
    have h2 := zip_map_self (validate_one_rule response) rules pr hpr
    rw [h2]
    exact validate_one_rule_unknown response pr.1 hkind

/-- A rule whose kind matches no branch of the dispatcher. -/
def gibberishRule : Rule := { type := "frobnicate" }

/-- Witness: `c9_rule_validator` at a concrete response and a concrete
one-element rule list with an unknown kind. -/
theorem c9_rule_validator_witness :
    (validate_rules "x" [gibberishRule]).length = [gibberishRule].length ∧
    (validate_one_rule "x" gibberishRule).passed = false :=
  ⟨(c9_rule_validator "x" [gibberishRule]).1,
    (c9_rule_validator "x" [gibberishRule]).2
      (gibberishRule, validate_one_rule "x" gibberishRule) (by decide) (by decide)⟩

/-! ## Claim C10 -/

/-- Claim C10, confirmed: the PR comment poster derives its three-tier
status solely from the normalized pass rate — `>= 95` yields
PASSED / approved-for-merge, `>= 90` yields WARNING / conditional
approval, anything lower yields FAILED / blocked — ignoring the detailed
`results` entirely (hence critical categories, semantic similarity and
hallucination rate); and when neither `pass_rate` nor both
`passed`/`total_tests` are present, the normalized rate defaults to 0,
producing FAILED. -/
theorem c10_pr_comment_status (r : Results) (now : String) :
    (∀ n, normalize_results r now = some n →
        create_pr_comment r now =
          some { status :=
                   if n.pass_rate ≥ 95 then "✅ PASSED"
                   else if n.pass_rate ≥ 90 then "⚠️ WARNING"
                   else "❌ FAILED",
                 decision :=
                   if n.pass_rate ≥ 95 then "✅ **APPROVED FOR MERGE**"
                   else if n.pass_rate ≥ 90 then "⚠️ **CONDITIONAL APPROVAL**"
                   else "❌ **BLOCKED FROM MERGE**" }) ∧
    (∀ rs, create_pr_comment { r with results := rs } now = create_pr_comment r now) ∧
    (r.pass_rate = none → (r.passed = none ∨ r.total_tests = none) →
        (normalize_results r now).map Normalized.pass_rate = some 0 ∧
        (create_pr_comment r now).map PRComment.status = some "❌ FAILED") := by
  refine ⟨?_, ?_, ?_⟩
  · intro n hn
    unfold create_pr_comment
    rw [hn]
  · intro rs
    rfl
  · intro hpr hmiss
    have hnorm : (normalize_results r now).map Normalized.pass_rate = some 0 := by
      unfold normalize_results
      rw [hpr]
      cases hp : r.passed with
      | none => cases ht : r.total_tests <;> rfl
      | some p =>
        cases ht : r.total_tests with
        | none => rfl
        | some t =>
          exfalso
          rcases hmiss with h | h
          · rw [hp] at h; cases h
          · rw [ht] at h; cases h
    refine ⟨hnorm, ?_⟩
    rcases hsome : normalize_results r now with _ | n
    · rw [hsome] at hnorm; cases hnorm
    · rw [hsome] at hnorm
      simp only [Option.map, Option.some.injEq] at hnorm
      unfold create_pr_comment
      rw [hsome]
      have h95 : ¬ n.pass_rate ≥ 95 := by rw [hnorm]; norm_num
      have h90 : ¬ n.pass_rate ≥ 90 := by rw [hnorm]; norm_num
      simp [h95, h90]

/-- The normalized record produced from an empty results dictionary. -/
def c10Norm : Normalized :=
  { model_used := "gpt-4o-mini", timestamp := "t0", pass_rate := 0,
    passed := 0, failed := 0, total_tests := 0 }

/-- Witness: `c10_pr_comment_status` at the all-absent input. -/
theorem c10_pr_comment_status_witness :
    (create_pr_comment ({} : Results) "t0" =
      some { status :=
               if c10Norm.pass_rate ≥ 95 then "✅ PASSED"
               else if c10Norm.pass_rate ≥ 90 then "⚠️ WARNING"
               else "❌ FAILED",
             decision :=
               if c10Norm.pass_rate ≥ 95 then "✅ **APPROVED FOR MERGE**"
               else if c10Norm.pass_rate ≥ 90 then "⚠️ **CONDITIONAL APPROVAL**"
               else "❌ **BLOCKED FROM MERGE**" }) ∧
    (create_pr_comment ({ results := some [] } : Results) "t0" =
      create_pr_comment ({} : Results) "t0") ∧
    ((normalize_results ({} : Results) "t0").map Normalized.pass_rate = some 0 ∧
      (create_pr_comment ({} : Results) "t0").map PRComment.status = some "❌ FAILED") :=
  ⟨(c10_pr_comment_status {} "t0").1 c10Norm (by decide),
    (c10_pr_comment_status {} "t0").2.1 (some []),
    (c10_pr_comment_status {} "t0").2.2 (by decide) (Or.inl (by decide))⟩

